import Mathlib

/-!
Verification development for the joblib shelf module.

Embedded source files:
- `joblib/shelf.py` — `ShelfFuture` (handle/future), `Shelf` (object store).
- `joblib/_tmp_dir.py` — `_get_temp_dir` (location resolver).

The storage backend (`_store_backend_factory`, `dump_item`, `load_item`,
`clear_item`) and the crash-recovery resource tracker (`register`,
`unregister`) are external collaborators whose code is not part of the
embedded sources; their operations are modelled from the specification's
external-interface contract (flat key/value storage per location, load
failing with "non-existing item" on an absent key, per-item clear a no-op
on an absent key, registry register/unregister by path).

Machine-level conventions of the embedding: Python values are a small
inductive `PyValue` with a distinguished `PyValue.none`; the `uuid4().hex`
fresh-identifier generator is modelled as a monotone counter supplying
identifiers that are fresh by construction; the mutable process state
(backend directories, registry, the process-wide `_futures` memoization
cache, the uuid supply, a backend-read counter, and the set of locations
where `shutil.rmtree` would raise) is an explicit `World` record threaded
through the operations; raising an exception is returning an error value.
-/

namespace JoblibShelf

/-- Python values stored on a shelf, with `PyValue.none` modelling Python's
`None` (which `ShelfFuture.result` also uses as its cache-miss sentinel). -/
inductive PyValue : Type
  | none : PyValue
  | int : Int → PyValue
  | str : String → PyValue
deriving DecidableEq, Repr

/-- Errors raised by the embedded operations: `RuntimeError(... already
closed shelf)` from `Shelf.shelve`, `KeyError(Non-existing item)` from the
backend's `load_item`, and an `OSError` from `shutil.rmtree`. -/
inductive Err : Type
  | alreadyClosed : Err
  | nonExistingItem : String → Nat → Err
  | osError : String → Err
deriving DecidableEq, Repr

/-- First-match lookup in an association list (Python `dict.get`). -/
def lookupA {α β : Type} [DecidableEq α] : List (α × β) → α → Option β
  | [], _ => Option.none
  | (k, v) :: rest, a => if k = a then Option.some v else lookupA rest a

/-- Overwrite-or-append update of an association list (Python `d[k] = v`). -/
def setA {α β : Type} [DecidableEq α] : List (α × β) → α → β → List (α × β)
  | [], a, b => [(a, b)]
  | (k, v) :: rest, a, b => if k = a then (a, b) :: rest else (k, v) :: setA rest a b

/-- Remove the first binding of a key from an association list. -/
def eraseA {α β : Type} [DecidableEq α] : List (α × β) → α → List (α × β)
  | [], _ => []
  | (k, v) :: rest, a => if k = a then rest else (k, v) :: eraseA rest a

/-- Items stored in one backend directory: identifier to value. -/
abbrev Items : Type := List (Nat × PyValue)

/-- Backend directories existing on the filesystem: location path to items. -/
abbrev Dirs : Type := List (String × Items)

/-- Modelled from the spec: the backend's `load_item` read, without its
effect — look an item up under `(identifier,)` in the directory at
`location`; `Option.none` stands for the "non-existing item" failure. -/
def itemLookup (d : Dirs) (loc : String) (i : Nat) : Option PyValue :=
  match lookupA d loc with
  | Option.none => Option.none
  | Option.some its => lookupA its i

/-- Modelled from the spec: the backend's `dump_item` — write `v` under key
`(i,)` in the directory at `loc`, creating the directory on demand. -/
def dumpItem (d : Dirs) (loc : String) (i : Nat) (v : PyValue) : Dirs :=
  setA d loc (setA ((lookupA d loc).getD []) i v)

/-- Modelled from the spec: the backend's `clear_item` — erase key `(i,)`
from the directory at `loc`; a no-op if the key (or location) is absent. -/
def clearItemD (d : Dirs) (loc : String) (i : Nat) : Dirs :=
  match lookupA d loc with
  | Option.none => d
  | Option.some its => setA d loc (eraseA its i)

/-- Remove a whole directory tree (`shutil.rmtree` on a shelf location). -/
def removeDir : Dirs → String → Dirs
  | [], _ => []
  | (l, its) :: rest, loc =>
      if l = loc then removeDir rest loc else (l, its) :: removeDir rest loc

/-- Modelled from the spec: the crash-recovery registry's `unregister` —
after it, the location is no longer registered. -/
def removeLoc : List String → String → List String
  | [], _ => []
  | l :: rest, loc => if l = loc then removeLoc rest loc else l :: removeLoc rest loc

/-- The explicit process-and-filesystem state threaded through the shelf
operations. `futures` is the process-wide `_futures` memoization cache
keyed by `(location, identifier)`; `uuidCtr` models `uuid4()` as a
by-construction-fresh supply; `backendLoads` counts successful backend
`load_item` reads (to observe cache hits versus re-reads); `rmtreeFails`
lists the locations where `shutil.rmtree` would raise an `OSError`. -/
structure World : Type where
  dirs : Dirs
  registry : List String
  futures : List ((String × Nat) × PyValue)
  uuidCtr : Nat
  backendLoads : Nat
  rmtreeFails : List String
deriving DecidableEq, Repr

/-- A Future-like object referencing a shelved object (`ShelfFuture`):
just the composite key `(location, identifier)`. -/
structure ShelfFuture : Type where
  location : String
  id : Nat
deriving DecidableEq, Repr

/-- `ShelfFuture.result` from `joblib/shelf.py`: consult the process-wide
`_futures` cache with `None` as the miss sentinel (`_futures.get(id,
None)`); on a miss, read the item through the backend (failing with
"non-existing item" if absent), memoize it, and return it. -/
def ShelfFuture.result (f : ShelfFuture) (w : World) : Except Err (PyValue × World) :=
  if (lookupA w.futures (f.location, f.id)).getD PyValue.none = PyValue.none then
    match itemLookup w.dirs f.location f.id with
    | Option.some v =>
        Except.ok (v, { w with backendLoads := w.backendLoads + 1,
                               futures := setA w.futures (f.location, f.id) v })
    | Option.none => Except.error (Err.nonExistingItem f.location f.id)
  else
    Except.ok ((lookupA w.futures (f.location, f.id)).getD PyValue.none, w)

/-- `ShelfFuture.clear` from `joblib/shelf.py`: erase this one item through
the backend's `clear_item`; the memoization cache is not touched. -/
def ShelfFuture.clear (f : ShelfFuture) (w : World) : World :=
  { w with dirs := clearItemD w.dirs f.location f.id }

/-- A `Shelf` (object store): `storeBackend` is `Option.some location` while
open and `Option.none` once closed (`self.store_backend = None`). -/
structure Shelf : Type where
  storeBackend : Option String
deriving DecidableEq, Repr

/-- `Shelf.shelve` from `joblib/shelf.py`: raise the "already closed shelf"
`RuntimeError` if the store backend is gone; otherwise draw a fresh
identifier (`uuid4().hex`), write the value through the backend under key
`(id,)`, and return a future carrying the backend's location and that
identifier. The shelf itself is unchanged (it stays open). -/
def Shelf.shelve (sh : Shelf) (w : World) (data : PyValue) :
    Except Err (ShelfFuture × Shelf × World) :=
  match sh.storeBackend with
  | Option.none => Except.error Err.alreadyClosed
  | Option.some loc =>
      Except.ok (⟨loc, w.uuidCtr⟩, sh,
        { w with uuidCtr := w.uuidCtr + 1,
                 dirs := dumpItem w.dirs loc w.uuidCtr data })

/-- `Shelf.close` from `joblib/shelf.py`: a no-op when already closed;
otherwise run `shutil.rmtree(location)` first — if it raises, the raise
propagates before `unregister` runs and before `store_backend` is cleared —
and only then unregister the location from the resource tracker and mark
the shelf closed. Returns (raised error if any, shelf, world). -/
def Shelf.close (sh : Shelf) (w : World) : Option Err × Shelf × World :=
  match sh.storeBackend with
  | Option.none => (Option.none, sh, w)
  | Option.some loc =>
      if loc ∈ w.rmtreeFails then
        (Option.some (Err.osError loc), sh, w)
      else
        (Option.none, ⟨Option.none⟩,
          { w with dirs := removeDir w.dirs loc,
                   registry := removeLoc w.registry loc })

/-- `Shelf.__exit__` from `joblib/shelf.py`: leaving a scoped-acquisition
(`with`) block just calls `close`. -/
def Shelf.scopeClose (sh : Shelf) (w : World) : Option Err × Shelf × World :=
  sh.close w

/-- The round trip of the spec's §8: shelve a value into an open shelf at
`loc`, then immediately resolve the returned future. -/
def shelveThenResult (w : World) (loc : String) (data : PyValue) : Except Err PyValue :=
  match Shelf.shelve ⟨Option.some loc⟩ w data with
  | Except.error e => Except.error e
  | Except.ok (fut, _, w1) =>
      match fut.result w1 with
      | Except.error e => Except.error e
      | Except.ok (v, _) => Except.ok v

end JoblibShelf

namespace JoblibTmpDir

/-- `SYSTEM_SHARED_MEM_FS` from `joblib/_tmp_dir.py`. -/
def SYSTEM_SHARED_MEM_FS : String := "/dev/shm"

/-- `SYSTEM_SHARED_MEM_FS_MIN_SIZE` from `joblib/_tmp_dir.py`: `int(2e9)`. -/
def SYSTEM_SHARED_MEM_FS_MIN_SIZE : Nat := 2000000000

/-- `os.path.join` for the simple relative sub-folder names the resolver
receives. -/
def pathJoin (a b : String) : String := a ++ "/" ++ b

/-- The ambient operating-system facts `_get_temp_dir` consults, made
explicit: the `JOBLIB_TEMP_FOLDER` environment variable, whether
`/dev/shm` exists, whether `os.statvfs` exists and whether calling it
raises an `OSError` (`statvfsOk = false` models the raise), its block
size and available-block counts, whether the pool folder already exists
under `/dev/shm`, whether `os.makedirs` there succeeds (`makedirsOk =
false` models an `OSError`), `tempfile.gettempdir()`, and the pure path
normalization `os.path.abspath(os.path.expanduser(·))`. -/
structure TmpEnv : Type where
  joblibTempFolder : Option String
  shmExists : Bool
  hasStatvfs : Bool
  statvfsOk : Bool
  statBsize : Nat
  statBavail : Nat
  poolFolderExists : Bool
  makedirsOk : Bool
  tempdir : String
  normalize : String → String

/-- What `_get_temp_dir` returns and does: the returned pool-folder path,
the returned `use_shared_mem` flag, and the directory it created via
`os.makedirs`, if any. -/
structure TmpResult : Type where
  poolFolder : String
  useSharedMem : Bool
  createdDir : Option String
deriving DecidableEq, Repr

/-- `_get_temp_dir` from `joblib/_tmp_dir.py`. The caller's `temp_folder`
argument takes precedence, then `JOBLIB_TEMP_FOLDER`, then the `/dev/shm`
probe (guarded by existence, `hasattr(os, "statvfs")`, the statistics
call succeeding, available bytes strictly above the threshold, and —
when the pool folder is missing — `os.makedirs` succeeding, with
`IOError`/`OSError` from the probe swallowed into a fallback), then
`tempfile.gettempdir()`. The chosen root is normalized and the pool
folder name appended. The function is total: the only exceptions the
probe can raise are caught by the source's `except (IOError, OSError)`. -/
def getTempDir (env : TmpEnv) (poolFolderName : String) (tempFolder : Option String) :
    TmpResult :=
  let tf0 : Option String :=
    match tempFolder with
    | Option.some t => Option.some t
    | Option.none => env.joblibTempFolder
  let probe : Option String × Bool × Option String :=
    match tf0 with
    | Option.some t => (Option.some t, false, Option.none)
    | Option.none =>
        if env.shmExists && env.hasStatvfs then
          if env.statvfsOk then
            if SYSTEM_SHARED_MEM_FS_MIN_SIZE < env.statBsize * env.statBavail then
              if env.poolFolderExists then
                (Option.some SYSTEM_SHARED_MEM_FS, true, Option.none)
              else if env.makedirsOk then
                (Option.some SYSTEM_SHARED_MEM_FS, true,
                  Option.some (pathJoin SYSTEM_SHARED_MEM_FS poolFolderName))
              else
                (Option.none, false, Option.none)
            else
              (Option.none, false, Option.none)
          else
            (Option.none, false, Option.none)
        else
          (Option.none, false, Option.none)
  { poolFolder := pathJoin (env.normalize (probe.1.getD env.tempdir)) poolFolderName,
    useSharedMem := probe.2.1,
    createdDir := probe.2.2 }

end JoblibTmpDir

namespace JoblibShelf

theorem lookupA_setA_self {α β : Type} [DecidableEq α] (l : List (α × β)) (a : α) (b : β) :
    lookupA (setA l a b) a = Option.some b := by
  induction l with
  | nil => simp [setA, lookupA]
  | cons p rest ih =>
      obtain ⟨k, v⟩ := p
      by_cases h : k = a
      · simp [setA, h, lookupA]
      · simp [setA, h, lookupA, ih]

theorem eraseA_absent {α β : Type} [DecidableEq α] (l : List (α × β)) (a : α)
    (h : lookupA l a = Option.none) : eraseA l a = l := by
  induction l with
  | nil => rfl
  | cons p rest ih =>
      obtain ⟨k, v⟩ := p
      by_cases hk : k = a
      · simp [lookupA, hk] at h
      · simp [lookupA, hk] at h
        simp [eraseA, hk, ih h]

theorem setA_of_lookup {α β : Type} [DecidableEq α] (l : List (α × β)) (a : α) (b : β)
    (h : lookupA l a = Option.some b) : setA l a b = l := by
  induction l with
  | nil => simp [lookupA] at h
  | cons p rest ih =>
      obtain ⟨k, v⟩ := p
      by_cases hk : k = a
      · simp [lookupA, hk] at h
        simp [setA, hk, h]
      · simp [lookupA, hk] at h
        simp [setA, hk, ih h]

theorem lookupA_removeDir (d : Dirs) (loc : String) :
    lookupA (removeDir d loc) loc = Option.none := by
  induction d with
  | nil => rfl
  | cons p rest ih =>
      obtain ⟨l, its⟩ := p
      by_cases h : l = loc
      · simp [removeDir, h, ih]
      · simp [removeDir, h, lookupA, ih]

theorem not_mem_removeLoc (r : List String) (loc : String) :
    loc ∉ removeLoc r loc := by
  induction r with
  | nil => simp [removeLoc]
  | cons l rest ih =>
      by_cases h : l = loc
      · simpa [removeLoc, h] using ih
      · simp [removeLoc, h, ih]
        exact fun hq => absurd hq.symm h

theorem itemLookup_dumpItem (d : Dirs) (loc : String) (i : Nat) (v : PyValue) :
    itemLookup (dumpItem d loc i v) loc i = Option.some v := by
  simp [itemLookup, dumpItem, lookupA_setA_self]

/-- C1: shelving a supported value into an open store and then resolving the
returned handle yields the shelved value back, for every value including
`PyValue.none`; the freshness hypothesis states the by-construction
guarantee that the fresh identifier has no memoized entry yet. -/
theorem shelve_result_roundtrip (w : World) (loc : String) (data : PyValue)
    (hfresh : lookupA w.futures (loc, w.uuidCtr) = Option.none) :
    shelveThenResult w loc data = Except.ok data := by
  simp [shelveThenResult, Shelf.shelve, ShelfFuture.result, hfresh, itemLookup_dumpItem]

theorem shelve_result_roundtrip_witness :
    lookupA (World.mk [] [] [] 0 0 []).futures ("L", (World.mk [] [] [] 0 0 []).uuidCtr)
      = Option.none
  ∧ shelveThenResult (World.mk [] [] [] 0 0 []) "L" (PyValue.int 42)
      = Except.ok (PyValue.int 42) :=
  ⟨rfl, shelve_result_roundtrip (World.mk [] [] [] 0 0 []) "L" (PyValue.int 42) rfl⟩

/-- C4: `shelve` raises the "already closed shelf" error exactly when the
store backend is gone; on an open shelf it draws the fresh identifier,
writes the value through the backend under that key, and returns a future
carrying exactly the shelf's location and that identifier, with the shelf
left open (unchanged). -/
theorem shelve_closed_error_and_write_through (w : World) (loc : String) (data : PyValue) :
    Shelf.shelve ⟨Option.none⟩ w data = Except.error Err.alreadyClosed
  ∧ Shelf.shelve ⟨Option.some loc⟩ w data =
      Except.ok (⟨loc, w.uuidCtr⟩, ⟨Option.some loc⟩,
        { w with uuidCtr := w.uuidCtr + 1,
                 dirs := dumpItem w.dirs loc w.uuidCtr data })
  ∧ itemLookup (dumpItem w.dirs loc w.uuidCtr data) loc w.uuidCtr = Option.some data :=
  ⟨rfl, rfl, itemLookup_dumpItem w.dirs loc w.uuidCtr data⟩

end JoblibShelf

namespace JoblibShelf

/-- C5: a successful `close` on an open shelf removes the whole location
directory, unregisters the location from the crash-recovery registry and
marks the shelf closed; a second `close` on the now-closed shelf is a
no-op that mutates neither filesystem nor registry; and leaving a scoped
acquisition block performs exactly the same `close`. -/
theorem close_removes_unregisters_idempotent (w : World) (loc : String)
    (h : loc ∉ w.rmtreeFails) :
    Shelf.close ⟨Option.some loc⟩ w =
      (Option.none, ⟨Option.none⟩,
        { w with dirs := removeDir w.dirs loc, registry := removeLoc w.registry loc })
  ∧ lookupA (removeDir w.dirs loc) loc = Option.none
  ∧ loc ∉ removeLoc w.registry loc
  ∧ Shelf.close ⟨Option.none⟩
      { w with dirs := removeDir w.dirs loc, registry := removeLoc w.registry loc } =
      (Option.none, ⟨Option.none⟩,
        { w with dirs := removeDir w.dirs loc, registry := removeLoc w.registry loc })
  ∧ Shelf.scopeClose ⟨Option.some loc⟩ w = Shelf.close ⟨Option.some loc⟩ w := by
  refine ⟨?_, lookupA_removeDir w.dirs loc, not_mem_removeLoc w.registry loc, rfl, rfl⟩
  simp [Shelf.close, h]

theorem close_removes_unregisters_idempotent_witness :
    Shelf.close ⟨Option.some "L"⟩ (World.mk [("L", [(0, PyValue.int 1)])] ["L"] [] 1 0 []) =
      (Option.none, ⟨Option.none⟩, World.mk [] [] [] 1 0 [])
  ∧ lookupA (removeDir (World.mk [("L", [(0, PyValue.int 1)])] ["L"] [] 1 0 []).dirs "L") "L"
      = Option.none
  ∧ "L" ∉ removeLoc (World.mk [("L", [(0, PyValue.int 1)])] ["L"] [] 1 0 []).registry "L"
  ∧ Shelf.close ⟨Option.none⟩ (World.mk [] [] [] 1 0 []) =
      (Option.none, ⟨Option.none⟩, World.mk [] [] [] 1 0 [])
  ∧ Shelf.scopeClose ⟨Option.some "L"⟩ (World.mk [("L", [(0, PyValue.int 1)])] ["L"] [] 1 0 [])
      = Shelf.close ⟨Option.some "L"⟩ (World.mk [("L", [(0, PyValue.int 1)])] ["L"] [] 1 0 []) :=
  close_removes_unregisters_idempotent
    (World.mk [("L", [(0, PyValue.int 1)])] ["L"] [] 1 0 []) "L" (by decide)

/-- C6 counterexample: a `close` whose `shutil.rmtree` raises leaves the
location still registered in the crash-recovery registry (the source runs
`rmtree` before `unregister`, so the raise happens first), contradicting
the claim that a failed close has already unregistered the location. -/
theorem close_failure_keeps_registration_cex :
    Shelf.close ⟨Option.some "L"⟩ (World.mk [("L", [])] ["L"] [] 0 0 ["L"]) =
      (Option.some (Err.osError "L"), ⟨Option.some "L"⟩,
        World.mk [("L", [])] ["L"] [] 0 0 ["L"])
  ∧ "L" ∈ (World.mk [("L", [])] ["L"] [] 0 0 ["L"]).registry := by
  exact ⟨by decide, by decide⟩

/-- C6 amended: when `close` fails because removing the location tree
raises, the error propagates before the unregister call runs, so the
location remains registered in the crash-recovery registry (and the shelf
remains marked open); the still-registered entry is what registry-driven
reaping later reclaims. -/
theorem close_failure_no_unregister (w : World) (loc : String)
    (h : loc ∈ w.rmtreeFails) :
    Shelf.close ⟨Option.some loc⟩ w =
      (Option.some (Err.osError loc), ⟨Option.some loc⟩, w) := by
  simp [Shelf.close, h]

theorem close_failure_no_unregister_witness :
    Shelf.close ⟨Option.some "M"⟩ (World.mk [("M", [])] ["M"] [] 0 0 ["M"]) =
      (Option.some (Err.osError "M"), ⟨Option.some "M"⟩,
        World.mk [("M", [])] ["M"] [] 0 0 ["M"]) :=
  close_failure_no_unregister (World.mk [("M", [])] ["M"] [] 0 0 ["M"]) "M" (by decide)

end JoblibShelf

namespace JoblibShelf

/-- C2 counterexample: after shelving `None` and resolving it once (which
does memoize it), a second `result` call re-reads through the backend —
the backend-read counter advances again — because the cache lookup uses
`None` as its miss sentinel. This contradicts the claim that every
subsequent `result` call returns the memoized value without reading
through the backend again, "including the value None". -/
theorem result_none_not_memoized_cex :
    ShelfFuture.result ⟨"L", 0⟩ (World.mk [("L", [(0, PyValue.none)])] [] [] 1 0 []) =
      Except.ok (PyValue.none,
        World.mk [("L", [(0, PyValue.none)])] [] [(("L", 0), PyValue.none)] 1 1 [])
  ∧ ShelfFuture.result ⟨"L", 0⟩
      (World.mk [("L", [(0, PyValue.none)])] [] [(("L", 0), PyValue.none)] 1 1 []) =
      Except.ok (PyValue.none,
        World.mk [("L", [(0, PyValue.none)])] [] [(("L", 0), PyValue.none)] 1 2 [])
  ∧ (World.mk [("L", [(0, PyValue.none)])] [] [(("L", 0), PyValue.none)] 1 2 []).backendLoads
      = (World.mk [("L", [(0, PyValue.none)])] [] [(("L", 0), PyValue.none)] 1 1 []).backendLoads
        + 1 :=
  ⟨rfl, rfl, rfl⟩

/-- C2 amended: after a `result` call has once succeeded with a value other
than `None`, every subsequent `result` call in the same process returns
that memoized value from the cache with the state untouched — in
particular without reading through the backend again; a successfully
resolved `None`, by contrast, is never served from the cache: each
further `result` call performs another backend read (the read counter
advances) because `None` is the cache-miss sentinel. -/
theorem result_memoized_serves_cache (f : ShelfFuture) (w : World) (v : PyValue) (w1 : World)
    (h : f.result w = Except.ok (v, w1)) :
    (v ≠ PyValue.none → f.result w1 = Except.ok (v, w1))
  ∧ (v = PyValue.none →
      f.result w1 = Except.ok (PyValue.none,
        { w1 with backendLoads := w1.backendLoads + 1,
                  futures := setA w1.futures (f.location, f.id) PyValue.none })) := by
  by_cases hc : (lookupA w.futures (f.location, f.id)).getD PyValue.none = PyValue.none
  · rw [ShelfFuture.result, if_pos hc] at h
    cases hit : itemLookup w.dirs f.location f.id with
    | none => rw [hit] at h; exact absurd h (by simp)
    | some u =>
        rw [hit] at h
        injection h with h1
        injection h1 with hu hw
        subst hu
        subst hw
        constructor
        · intro hv
          simp [ShelfFuture.result, lookupA_setA_self, hv]
        · intro hvn
          subst hvn
          simp [ShelfFuture.result, lookupA_setA_self, hit]
  · rw [ShelfFuture.result, if_neg hc] at h
    injection h with h1
    injection h1 with hv2 hw
    subst hw
    constructor
    · intro _
      rw [ShelfFuture.result, if_neg hc, hv2]
    · intro hvn
      rw [hv2] at hc
      exact absurd hvn hc

theorem result_memoized_serves_cache_witness :
    (PyValue.int 7 ≠ PyValue.none →
      ShelfFuture.result ⟨"L", 0⟩
        (World.mk [("L", [(0, PyValue.int 7)])] [] [(("L", 0), PyValue.int 7)] 1 1 []) =
        Except.ok (PyValue.int 7,
          World.mk [("L", [(0, PyValue.int 7)])] [] [(("L", 0), PyValue.int 7)] 1 1 []))
  ∧ (PyValue.int 7 = PyValue.none →
      ShelfFuture.result ⟨"L", 0⟩
        (World.mk [("L", [(0, PyValue.int 7)])] [] [(("L", 0), PyValue.int 7)] 1 1 []) =
        Except.ok (PyValue.none,
          { World.mk [("L", [(0, PyValue.int 7)])] [] [(("L", 0), PyValue.int 7)] 1 1 [] with
              backendLoads :=
                (World.mk [("L", [(0, PyValue.int 7)])] [] [(("L", 0), PyValue.int 7)] 1 1
                  []).backendLoads + 1,
              futures :=
                setA (World.mk [("L", [(0, PyValue.int 7)])] [] [(("L", 0), PyValue.int 7)] 1 1
                  []).futures ("L", 0) PyValue.none })) :=
  result_memoized_serves_cache ⟨"L", 0⟩
    (World.mk [("L", [(0, PyValue.int 7)])] [] [] 1 0 []) (PyValue.int 7)
    (World.mk [("L", [(0, PyValue.int 7)])] [] [(("L", 0), PyValue.int 7)] 1 1 []) rfl

end JoblibShelf

namespace JoblibShelf

/-- C3 counterexample: a handle whose non-`None` value was resolved and
memoized before the item was cleared does not fail with "not found" — it
silently returns the stale memoized value. Here the item is shelved (value
42), resolved once, cleared from the backend (the backend lookup now
misses), yet a further `result` call returns 42 instead of the
`Err.nonExistingItem` failure the claim demands. -/
theorem result_stale_after_clear_cex :
    ShelfFuture.result ⟨"L", 0⟩ (World.mk [("L", [(0, PyValue.int 42)])] [] [] 1 0 []) =
      Except.ok (PyValue.int 42,
        World.mk [("L", [(0, PyValue.int 42)])] [] [(("L", 0), PyValue.int 42)] 1 1 [])
  ∧ ShelfFuture.clear ⟨"L", 0⟩
      (World.mk [("L", [(0, PyValue.int 42)])] [] [(("L", 0), PyValue.int 42)] 1 1 []) =
      World.mk [("L", [])] [] [(("L", 0), PyValue.int 42)] 1 1 []
  ∧ itemLookup (World.mk [("L", [])] [] [(("L", 0), PyValue.int 42)] 1 1 []).dirs "L" 0 =
      Option.none
  ∧ ShelfFuture.result ⟨"L", 0⟩ (World.mk [("L", [])] [] [(("L", 0), PyValue.int 42)] 1 1 []) =
      Except.ok (PyValue.int 42,
        World.mk [("L", [])] [] [(("L", 0), PyValue.int 42)] 1 1 []) :=
  ⟨rfl, rfl, rfl, rfl⟩

/-- C3 amended: `result` fails with the "non-existing item" error whenever
the item is absent from the backend (never shelved there, already cleared,
or the owning store's location was removed by `close`), provided no
non-`None` value is memoized for `(location, identifier)` — a handle whose
non-`None` value was memoized before the item was cleared instead returns
the stale cached value; and per-item `clear` on an absent identifier is a
silent no-op, not an error. -/
theorem result_not_found_and_clear_noop (f : ShelfFuture) (w : World)
    (hc : lookupA w.futures (f.location, f.id) = Option.none
        ∨ lookupA w.futures (f.location, f.id) = Option.some PyValue.none)
    (hb : itemLookup w.dirs f.location f.id = Option.none) :
    f.result w = Except.error (Err.nonExistingItem f.location f.id)
  ∧ f.clear w = w := by
  have hcc : (lookupA w.futures (f.location, f.id)).getD PyValue.none = PyValue.none := by
    rcases hc with h | h <;> rw [h] <;> rfl
  constructor
  · rw [ShelfFuture.result, if_pos hcc, hb]
  · rw [ShelfFuture.clear]
    cases hd : lookupA w.dirs f.location with
    | none => simp [clearItemD, hd]
    | some its =>
        have hbi : lookupA its f.id = Option.none := by
          simpa [itemLookup, hd] using hb
        simp [clearItemD, hd, eraseA_absent its f.id hbi,
          setA_of_lookup w.dirs f.location its hd]

theorem result_not_found_and_clear_noop_witness :
    ShelfFuture.result ⟨"L", 0⟩ (World.mk [] [] [] 0 0 []) =
      Except.error (Err.nonExistingItem "L" 0)
  ∧ ShelfFuture.clear ⟨"L", 0⟩ (World.mk [] [] [] 0 0 []) = World.mk [] [] [] 0 0 [] :=
  result_not_found_and_clear_noop ⟨"L", 0⟩ (World.mk [] [] [] 0 0 [])
    (Or.inl rfl) rfl

end JoblibShelf

namespace JoblibTmpDir

/-- C7: the resolver's precedence. An explicit override is used verbatim
(environment variable and shared-memory probe ignored, `useSharedMem`
false); else a set `JOBLIB_TEMP_FOLDER` is used the same way; the
shared-memory mount is selected only when no override is given, the mount
exists, `os.statvfs` is available and succeeds, and available bytes (block
size times available blocks) strictly exceed 2×10⁹, in which case
`useSharedMem = true` is reported and the mount is the chosen root;
otherwise the default temporary directory is the root. In every case the
returned path is the normalized chosen root with the pool folder name
appended. -/
theorem getTempDir_precedence (env : TmpEnv) (name t : String) :
    getTempDir env name (Option.some t) =
      { poolFolder := pathJoin (env.normalize t) name,
        useSharedMem := false, createdDir := Option.none }
  ∧ (env.joblibTempFolder = Option.some t →
      getTempDir env name Option.none =
        { poolFolder := pathJoin (env.normalize t) name,
          useSharedMem := false, createdDir := Option.none })
  ∧ ((getTempDir env name Option.none).useSharedMem = true →
        env.joblibTempFolder = Option.none ∧ env.shmExists = true ∧ env.hasStatvfs = true
      ∧ env.statvfsOk = true
      ∧ SYSTEM_SHARED_MEM_FS_MIN_SIZE < env.statBsize * env.statBavail
      ∧ (getTempDir env name Option.none).poolFolder =
          pathJoin (env.normalize SYSTEM_SHARED_MEM_FS) name)
  ∧ (env.joblibTempFolder = Option.none →
      (getTempDir env name Option.none).useSharedMem = false →
      (getTempDir env name Option.none).poolFolder =
        pathJoin (env.normalize env.tempdir) name) := by
  obtain ⟨jtf, shm, hst, sv, bs, ba, pfe, mkd, td, nor⟩ := env
  refine ⟨rfl, ?_, ?_, ?_⟩
  · intro hj
    cases jtf with
    | none => exact Option.noConfusion hj
    | some t' =>
        injection hj with ht
        subst ht
        rfl
  · intro hu
    cases jtf with
    | some t' => exact absurd hu (by simp [getTempDir])
    | none =>
        cases shm with
        | false => exact absurd hu (by simp [getTempDir])
        | true =>
            cases hst with
            | false => exact absurd hu (by simp [getTempDir])
            | true =>
                cases sv with
                | false => exact absurd hu (by simp [getTempDir])
                | true =>
                    by_cases hth : SYSTEM_SHARED_MEM_FS_MIN_SIZE < bs * ba
                    · cases pfe with
                      | true => exact ⟨rfl, rfl, rfl, rfl, hth, by simp [getTempDir, hth]⟩
                      | false =>
                          cases mkd with
                          | true => exact ⟨rfl, rfl, rfl, rfl, hth, by simp [getTempDir, hth]⟩
                          | false => exact absurd hu (by simp [getTempDir, hth])
                    · exact absurd hu (by simp [getTempDir, hth])
  · intro hj hu
    subst hj
    cases shm with
    | false => simp [getTempDir]
    | true =>
        cases hst with
        | false => simp [getTempDir]
        | true =>
            cases sv with
            | false => simp [getTempDir]
            | true =>
                by_cases hth : SYSTEM_SHARED_MEM_FS_MIN_SIZE < bs * ba
                · cases pfe with
                  | true => exact absurd hu (by simp [getTempDir, hth])
                  | false =>
                      cases mkd with
                      | true => exact absurd hu (by simp [getTempDir, hth])
                      | false => simp [getTempDir, hth]
                · simp [getTempDir, hth]

/-- C8 counterexample: on the shared-memory path the resolver does create
the final pool-folder directory it returns — `os.makedirs(pool_folder)` is
run inside the probe, and with the mount already an absolute path the
created directory equals the returned `poolFolder` — contradicting the
claim that the resolver never creates the final directory. -/
theorem getTempDir_creates_final_dir_cex :
    (getTempDir
        (TmpEnv.mk Option.none true true true 4096 1000000 false true "/tmp" (fun s => s))
        "p" Option.none).createdDir =
      Option.some
        ((getTempDir
            (TmpEnv.mk Option.none true true true 4096 1000000 false true "/tmp" (fun s => s))
            "p" Option.none).poolFolder)
  ∧ (getTempDir
        (TmpEnv.mk Option.none true true true 4096 1000000 false true "/tmp" (fun s => s))
        "p" Option.none).useSharedMem = true :=
  ⟨rfl, rfl⟩

/-- C8 amended: the resolver creates a directory only on the shared-memory
path — whenever it creates one, the shared-memory mount was selected and
the created directory is the mount's pool folder (the write-access probe);
on every path where the mount is not selected, it creates no directory. -/
theorem getTempDir_mkdir_only_on_shm (env : TmpEnv) (name : String) (tf : Option String) :
    ((getTempDir env name tf).createdDir ≠ Option.none →
       (getTempDir env name tf).useSharedMem = true
     ∧ (getTempDir env name tf).createdDir =
         Option.some (pathJoin SYSTEM_SHARED_MEM_FS name))
  ∧ ((getTempDir env name tf).useSharedMem = false →
       (getTempDir env name tf).createdDir = Option.none) := by
  obtain ⟨jtf, shm, hst, sv, bs, ba, pfe, mkd, td, nor⟩ := env
  cases tf with
  | some t => simp [getTempDir]
  | none =>
      cases jtf with
      | some t' => simp [getTempDir]
      | none =>
          cases shm <;> cases hst <;> cases sv <;> cases pfe <;> cases mkd <;>
            by_cases hth : SYSTEM_SHARED_MEM_FS_MIN_SIZE < bs * ba <;>
            simp [getTempDir, hth]

/-- C9: a statistics failure (`os.statvfs` raising), a creation failure
(`os.makedirs` raising), or a missing `os.statvfs` capability during the
shared-memory probe is swallowed — the resolver is a total function, since
the source catches `(IOError, OSError)` around the probe — and the
resolver falls back to the process-wide default temporary directory with
`useSharedMem = false` and no directory created. -/
theorem getTempDir_swallows_probe_failures (env : TmpEnv) (name : String)
    (hj : env.joblibTempFolder = Option.none)
    (hfail : (env.shmExists = true ∧ env.hasStatvfs = false)
           ∨ (env.shmExists = true ∧ env.hasStatvfs = true ∧ env.statvfsOk = false)
           ∨ (env.shmExists = true ∧ env.hasStatvfs = true ∧ env.statvfsOk = true
              ∧ SYSTEM_SHARED_MEM_FS_MIN_SIZE < env.statBsize * env.statBavail
              ∧ env.poolFolderExists = false ∧ env.makedirsOk = false)) :
    getTempDir env name Option.none =
      { poolFolder := pathJoin (env.normalize env.tempdir) name,
        useSharedMem := false, createdDir := Option.none } := by
  obtain ⟨jtf, shm, hst, sv, bs, ba, pfe, mkd, td, nor⟩ := env
  subst hj
  rcases hfail with ⟨h1, h2⟩ | ⟨h1, h2, h3⟩ | ⟨h1, h2, h3, h4, h5, h6⟩ <;>
    subst_vars <;> simp [getTempDir, *]

theorem getTempDir_swallows_probe_failures_witness :
    getTempDir (TmpEnv.mk Option.none true true false 0 0 false false "/tmp" (fun s => s)) "p"
        Option.none =
      { poolFolder :=
          pathJoin
            ((TmpEnv.mk Option.none true true false 0 0 false false "/tmp"
                (fun s => s)).normalize
              (TmpEnv.mk Option.none true true false 0 0 false false "/tmp"
                (fun s => s)).tempdir) "p",
        useSharedMem := false, createdDir := Option.none } :=
  getTempDir_swallows_probe_failures
    (TmpEnv.mk Option.none true true false 0 0 false false "/tmp" (fun s => s)) "p" rfl
    (Or.inr (Or.inl ⟨rfl, rfl, rfl⟩))

/-- C10: whenever an explicit override or the `JOBLIB_TEMP_FOLDER`
environment override supplies the root, the resolver reports
`useSharedMem = false`, for every supplied path — including the
shared-memory mount point itself. -/
theorem getTempDir_override_reports_false (env : TmpEnv) (name t : String) :
    (getTempDir env name (Option.some t)).useSharedMem = false
  ∧ (env.joblibTempFolder = Option.some t →
      (getTempDir env name Option.none).useSharedMem = false) := by
  constructor
  · rfl
  · intro hj
    simp [getTempDir, hj]

end JoblibTmpDir
